import Mathlib

/-!
# Averaged stochastic gradient descent learner

A shallow embedding of `trainers::StochasticGradientDescentLearner`
(`libraries/trainers/tcc/StochasticGradientDescentLearner.tcc`).

* `double` values are elements of a field `K`; the theorems take `K = ℝ` and
  `std::log = Real.log`, the definitions stay executable over any field
  (`ℚ` for instance) with the logarithm passed as an argument.
* A dense vector of dimension `d` is a function `Fin d → K`.
* The example iterator is the list of the examples it has not yet produced.
* A member function that mutates the learner takes the state and returns the new
  state; `Update` returns `none` when its `assert` fails.
-/

namespace trainers

/-! ## Collaborators of the learner -/

/-- Modelled from the spec: `predictors::LinearPredictor` (its header is not among the
sources).  An affine scoring function `w·x + b` with a dense weight vector of fixed
dimension `d` and a scalar bias. -/
@[ext]
structure LinearPredictor (K : Type) (d : Nat) where
  /-- the weight vector, `GetVector()` -/
  w : Fin d → K
  /-- the bias, `GetBias()` -/
  b : K

/-- Modelled from the spec: a single training instance of `dataset::GenericRowDataset`:
feature vector, label and weight. -/
structure Example (K : Type) (d : Nat) where
  /-- the feature vector, `GetDataVector()` -/
  dataVector : Fin d → K
  /-- the label, `GetLabel()` -/
  label : K
  /-- the importance weight, `GetWeight()` -/
  weight : K

/-- Modelled from the spec: `StochasticGradientDescentLearnerParameters`, the
hyperparameters of the learner: a single regularization coefficient. -/
structure StochasticGradientDescentLearnerParameters (K : Type) where
  /-- the regularization coefficient -/
  regularization : K

/-- Modelled from the spec: the loss function capability, a single operation
`GetDerivative(prediction, label)`. -/
structure LossFunctionType (K : Type) where
  /-- derivative of the loss with respect to the prediction -/
  GetDerivative : K → K → K

/-- Modelled from the spec: `dataset::GenericRowDataset::Iterator`, a finite forward
cursor over examples, represented by the list of examples still to come. -/
abbrev Iterator (K : Type) (d : Nat) : Type := List (Example K d)

section Collaborators

variable {K : Type} [Field K] {d : Nat}

/-- Modelled from the spec: `Iterator::NumIteratesLeft()`, how many examples remain. -/
def Iterator.NumIteratesLeft (it : Iterator K d) : Nat := it.length

/-- Modelled from the spec: `LinearPredictor(dim)`, the zero predictor of dimension
`dim`. -/
def LinearPredictor.new (K : Type) [Field K] (dim : Nat) : LinearPredictor K dim :=
  { w := fun _ => 0, b := 0 }

/-- Modelled from the spec: `x.AddTo(v, c)` performs `v += c * x` on dense vectors
and returns the new value of `v`. -/
def AddTo (x : Fin d → K) (v : Fin d → K) (c : K) : Fin d → K :=
  fun i => v i + c * x i

/-- Modelled from the spec: `LinearPredictor::Predict(x) = w·x + b`. -/
def LinearPredictor.Predict (p : LinearPredictor K d) (x : Fin d → K) : K :=
  (∑ i, p.w i * x i) + p.b

/-- Modelled from the spec: `LinearPredictor::Scale(s)` multiplies `w` and `b` by
`s`. -/
def LinearPredictor.Scale (p : LinearPredictor K d) (s : K) : LinearPredictor K d :=
  { w := fun i => p.w i * s, b := p.b * s }

/-- Modelled from the spec: `LinearPredictor::Reset()` zeroes `w` and `b`. -/
def LinearPredictor.Reset (_p : LinearPredictor K d) : LinearPredictor K d :=
  { w := fun _ => 0, b := 0 }

/-- Modelled from the spec: `LinearPredictor::GetDimension()`. -/
def LinearPredictor.GetDimension (_p : LinearPredictor K d) : Nat := d

/-- Modelled from the spec: `LinearPredictor::Swap(a, b)` exchanges two predictors;
the pair returned is the new value of `(a, b)`. -/
def LinearPredictor.Swap (a b : LinearPredictor K d) :
    LinearPredictor K d × LinearPredictor K d :=
  (b, a)

end Collaborators

/-! ## The learner -/

/-- The data members of `StochasticGradientDescentLearner<LossFunctionType>`, in
the order of the constructor's initializer list.  The class declaration is not
among the sources; the iteration counter is taken as a natural number, as the spec
describes it. -/
@[ext]
structure StochasticGradientDescentLearner (K : Type) (d : Nat) where
  /-- `_parameters` -/
  parameters : StochasticGradientDescentLearnerParameters K
  /-- `_lossFunction` -/
  lossFunction : LossFunctionType K
  /-- `_total_iterations` -/
  total_iterations : Nat
  /-- `_lastPredictor` -/
  lastPredictor : LinearPredictor K d
  /-- `_averagedPredictor` -/
  averagedPredictor : LinearPredictor K d

section Learner

variable {K : Type} [Field K] {d : Nat}

/-- The constructor (lines 22-24): stores the parameters and the loss function,
starts the counter at 1 and creates both predictors with dimension `dim`.  Its body is
empty: nothing is validated and nothing can fail, so it is a total function. -/
def StochasticGradientDescentLearner.new (dim : Nat)
    (parameters : StochasticGradientDescentLearnerParameters K)
    (lossFunction : LossFunctionType K) : StochasticGradientDescentLearner K dim :=
  { parameters := parameters
    lossFunction := lossFunction
    total_iterations := 1
    lastPredictor := LinearPredictor.new K dim
    averagedPredictor := LinearPredictor.new K dim }

/-- The factory `MakeStochasticGradientDescentLearner` (lines 100-104):
`std::make_unique` of the constructor call.  The owning pointer is an `Option`;
`none` would be a construction that yields no learner. -/
def MakeStochasticGradientDescentLearner (dim : Nat)
    (parameters : StochasticGradientDescentLearnerParameters K)
    (lossFunction : LossFunctionType K) :
    Option (StochasticGradientDescentLearner K dim) :=
  some (StochasticGradientDescentLearner.new dim parameters lossFunction)

/-- The step size `eta = 1.0 / _parameters.regularization / T_prev` of line 39,
as a function of the state in which `Update` starts. -/
def Update.eta (s : StochasticGradientDescentLearner K d) : K :=
  1 / s.parameters.regularization / (s.total_iterations : K)

/-- The `while (exampleIterator.IsValid())` loop of `Update` (lines 46-74), with
the constants `T_prev`, `eta` and `sigma` computed before it.  `IsValid()`, `Get()` and
`Next()` are the match on the list of remaining examples. -/
def Update.loop (log : K → K) (T_prev eta sigma : K) :
    StochasticGradientDescentLearner K d → Iterator K d →
      StochasticGradientDescentLearner K d
  | s, [] => s
  | s, «example» :: rest =>
    -- ++_total_iterations
    let total_iterations := s.total_iterations + 1
    let t : K := (total_iterations : K)
    -- get the next example
    let label := «example».label
    let weight := «example».weight
    let dataVector := «example».dataVector
    -- calculate the prediction
    let alpha := T_prev / (t - 1) * s.lastPredictor.Predict dataVector
    -- calculate the loss derivative
    let beta := weight * s.lossFunction.GetDerivative alpha label
    -- update vLast and vAvg
    let lastCoeff := -eta * beta
    let vLast := AddTo dataVector s.lastPredictor.w lastCoeff
    let bLast := s.lastPredictor.b + lastCoeff
    let avgCoeff := lastCoeff * (sigma - log t - (1 / 2) / t)
    let vAvg := AddTo dataVector s.averagedPredictor.w avgCoeff
    let bAvg := s.averagedPredictor.b + avgCoeff
    -- move on
    Update.loop log T_prev eta sigma
      { s with
        total_iterations := total_iterations
        lastPredictor := { w := vLast, b := bLast }
        averagedPredictor := { w := vAvg, b := bAvg } }
      rest

/-- The member function `Update` (lines 27-82).  `log` is `std::log`.  The result is
`none` when the assertion of line 76 fails. -/
def Update [DecidableEq K] (log : K → K) (s : StochasticGradientDescentLearner K d)
    (exampleIterator : Iterator K d) : Option (StochasticGradientDescentLearner K d) :=
  -- define some constants
  let T_prev : K := (s.total_iterations : K)
  let T_next : K := T_prev + (exampleIterator.NumIteratesLeft : K)
  let eta : K := Update.eta s
  let sigma : K := log T_next + (1 / 2) / T_next
  -- the contribution of the old lastPredictor to the new averagedPredictor
  let historyWeight : K := sigma - log T_prev - (1 / 2) / T_prev
  let vAvg := AddTo s.lastPredictor.w s.averagedPredictor.w historyWeight
  let bAvg := s.averagedPredictor.b + s.lastPredictor.b * historyWeight
  let s1 := Update.loop log T_prev eta sigma
    { s with averagedPredictor := { w := vAvg, b := bAvg } } exampleIterator
  -- assert((double)_total_iterations == T_next)
  if (s1.total_iterations : K) = T_next then
    -- calculate w and w_avg
    let scale := T_prev / T_next
    some
      { s1 with
        lastPredictor := s1.lastPredictor.Scale scale
        averagedPredictor := s1.averagedPredictor.Scale scale }
  else
    none

/-- The member function `GetPredictor` (lines 84-88): the averaged predictor.  It is
`const`: the state returned with the predictor is the state it was called on. -/
def GetPredictor (s : StochasticGradientDescentLearner K d) :
    LinearPredictor K d × StochasticGradientDescentLearner K d :=
  (s.averagedPredictor, s)

/-- The member function `Reset` (lines 90-98): returns the previous averaged
predictor together with the new state. -/
def Reset (s : StochasticGradientDescentLearner K d) :
    LinearPredictor K d × StochasticGradientDescentLearner K d :=
  let lastPredictor := s.lastPredictor.Reset
  let averagedPredictor := LinearPredictor.new K s.averagedPredictor.GetDimension
  let swapped := LinearPredictor.Swap s.averagedPredictor averagedPredictor
  (swapped.2,
    { s with
      total_iterations := 1
      lastPredictor := lastPredictor
      averagedPredictor := swapped.1 })

/-- One single-example call of `Update`, in closed form: what `Update log s [e]`
returns (see `Update_eq_foldl`).  Used to state the loop invariant. -/
def stepOne (log : K → K) (s : StochasticGradientDescentLearner K d) (e : Example K d) :
    StochasticGradientDescentLearner K d :=
  let T : K := (s.total_iterations : K)
  let historyWeight : K := log (T + 1) + (1 / 2) / (T + 1) - log T - (1 / 2) / T
  let lastCoeff : K := -Update.eta s *
    (e.weight * s.lossFunction.GetDerivative (s.lastPredictor.Predict e.dataVector) e.label)
  { s with
    total_iterations := s.total_iterations + 1
    lastPredictor :=
      { w := fun i => (s.lastPredictor.w i + lastCoeff * e.dataVector i) * (T / (T + 1))
        b := (s.lastPredictor.b + lastCoeff) * (T / (T + 1)) }
    averagedPredictor :=
      { w := fun i =>
          (s.averagedPredictor.w i + historyWeight * s.lastPredictor.w i) * (T / (T + 1))
        b := (s.averagedPredictor.b + s.lastPredictor.b * historyWeight) * (T / (T + 1)) } }

/-- The state the loop of `Update` holds in memory when the learner is, in effect, in
state `s`: the call started at iteration `T_prev` with the constant `sigma`, both
predictors are still to be multiplied by `T_prev / t`, and the averaged predictor
already contains the share `sigma - log t - 1/(2t)` of the last one. -/
def stored (log : K → K) (T_prev sigma : K) (s : StochasticGradientDescentLearner K d) :
    StochasticGradientDescentLearner K d :=
  let t : K := (s.total_iterations : K)
  { s with
    lastPredictor := s.lastPredictor.Scale (t / T_prev)
    averagedPredictor :=
      { w := fun i => s.averagedPredictor.w i * (t / T_prev) +
          (sigma - log t - (1 / 2) / t) * (s.lastPredictor.w i * (t / T_prev))
        b := s.averagedPredictor.b * (t / T_prev) +
          (sigma - log t - (1 / 2) / t) * (s.lastPredictor.b * (t / T_prev)) } }

/-- Calling `Update` once per example, each call with an iterator over that single
example, in the order of the list. -/
def UpdateEach [DecidableEq K] (log : K → K) (s : StochasticGradientDescentLearner K d)
    (examples : List (Example K d)) : Option (StochasticGradientDescentLearner K d) :=
  examples.foldlM (fun s e => Update log s [e]) s

/-- A sequence of `Update` calls, one per batch, with no `Reset` in between. -/
def UpdateAll [DecidableEq K] (log : K → K) (s : StochasticGradientDescentLearner K d)
    (batches : List (Iterator K d)) : Option (StochasticGradientDescentLearner K d) :=
  batches.foldlM (Update log) s

/-- A call of one of the three member functions of the learner. -/
inductive Call (K : Type) (d : Nat) where
  /-- `Update(exampleIterator)` -/
  | Update (exampleIterator : Iterator K d)
  /-- `GetPredictor()` -/
  | GetPredictor
  /-- `Reset()` -/
  | Reset

/-- The state after one call; `none` when the call does not return. -/
def Call.run [DecidableEq K] (log : K → K) (s : StochasticGradientDescentLearner K d) :
    Call K d → Option (StochasticGradientDescentLearner K d)
  | Call.Update exampleIterator => trainers.Update log s exampleIterator
  | Call.GetPredictor => some (trainers.GetPredictor s).2
  | Call.Reset => some (trainers.Reset s).2

/-- The state after a sequence of calls. -/
def runCalls [DecidableEq K] (log : K → K) (s : StochasticGradientDescentLearner K d)
    (calls : List (Call K d)) : Option (StochasticGradientDescentLearner K d) :=
  calls.foldlM (Call.run log) s

/-! ### The concrete scenario of the spec -/

/-- The loss of the scenario: its derivative is `prediction - label`. -/
def squaredLoss (K : Type) [Field K] : LossFunctionType K :=
  { GetDerivative := fun prediction label => prediction - label }

/-- The fresh learner of the scenario: dimension 2, regularization 1. -/
def scenarioLearner (K : Type) [Field K] : StochasticGradientDescentLearner K 2 :=
  StochasticGradientDescentLearner.new 2 { regularization := 1 } (squaredLoss K)

/-- The first example of the scenario: `x = [1, 0]`, `y = 1`, `weight = 1`. -/
def scenarioFirst (K : Type) [Field K] : Example K 2 :=
  { dataVector := ![1, 0], label := 1, weight := 1 }

/-- The second example of the scenario: `x = [0, 1]`, `y = -1`, `weight = 1`. -/
def scenarioSecond (K : Type) [Field K] : Example K 2 :=
  { dataVector := ![0, 1], label := -1, weight := 1 }

/-- The scenario: two separate single-example `Update` calls on the fresh learner. -/
def scenarioRun (K : Type) [Field K] [DecidableEq K] (log : K → K) :
    Option (StochasticGradientDescentLearner K 2) :=
  (Update log (scenarioLearner K) [scenarioFirst K]).bind
    fun s => Update log s [scenarioSecond K]

/-! ### The constants of `Update` and the values it passes to the loss -/

/-- The constant `sigma = std::log(T_next) + 0.5 / T_next` of line 40, with
`T_next = T_prev + exampleIterator.NumIteratesLeft()`. -/
def Update.sigma (log : K → K) (s : StochasticGradientDescentLearner K d)
    (exampleIterator : Iterator K d) : K :=
  let T_prev : K := (s.total_iterations : K)
  let T_next : K := T_prev + (exampleIterator.NumIteratesLeft : K)
  log T_next + (1 / 2) / T_next

/-- The constant `historyWeight = sigma - std::log(T_prev) - 0.5 / T_prev` of
line 43. -/
def Update.historyWeight (log : K → K) (s : StochasticGradientDescentLearner K d)
    (exampleIterator : Iterator K d) : K :=
  let T_prev : K := (s.total_iterations : K)
  Update.sigma log s exampleIterator - log T_prev - (1 / 2) / T_prev

/-- The factor `sigma - std::log(t) - 0.5 / t` that multiplies `lastCoeff` in
`avgCoeff` (line 68). -/
def Update.avgFactor (log : K → K) (sigma t : K) : K :=
  sigma - log t - (1 / 2) / t

/-- The state in which `Update` enters its loop (lines 44-45): the averaged predictor
has received `historyWeight` times the last predictor. -/
def Update.start (log : K → K) (s : StochasticGradientDescentLearner K d)
    (exampleIterator : Iterator K d) : StochasticGradientDescentLearner K d :=
  { s with
    averagedPredictor :=
      { w := AddTo s.lastPredictor.w s.averagedPredictor.w
          (Update.historyWeight log s exampleIterator)
        b := s.averagedPredictor.b +
          s.lastPredictor.b * Update.historyWeight log s exampleIterator } }

/-- The weighting kernel `h(t) = ln(t) + 1/(2t)`. -/
def weightingKernel (log : K → K) (t : K) : K :=
  log t + 1 / (2 * t)

end Learner

/-! ## Lemmas on the loop -/

section Lemmas

variable {K : Type} [Field K] {d : Nat}

theorem Predict_Scale (p : LinearPredictor K d) (c : K) (x : Fin d → K) :
    (p.Scale c).Predict x = p.Predict x * c := by
  simp only [LinearPredictor.Predict, LinearPredictor.Scale, add_mul, Finset.sum_mul]
  congr 1
  apply Finset.sum_congr rfl
  intro i _
  ring

theorem stepOne_total (log : K → K) (s : StochasticGradientDescentLearner K d)
    (e : Example K d) : (stepOne log s e).total_iterations = s.total_iterations + 1 := rfl

theorem stepOne_parameters (log : K → K) (s : StochasticGradientDescentLearner K d)
    (e : Example K d) : (stepOne log s e).parameters = s.parameters := rfl

theorem stepOne_lossFunction (log : K → K) (s : StochasticGradientDescentLearner K d)
    (e : Example K d) : (stepOne log s e).lossFunction = s.lossFunction := rfl

theorem foldl_stepOne_total (log : K → K) (xs : List (Example K d))
    (s : StochasticGradientDescentLearner K d) :
    (xs.foldl (stepOne log) s).total_iterations = s.total_iterations + xs.length := by
  induction xs generalizing s with
  | nil => simp
  | cons e rest ih =>
    simp only [List.foldl_cons, List.length_cons, ih, stepOne_total]
    omega

theorem foldl_stepOne_parameters (log : K → K) (xs : List (Example K d))
    (s : StochasticGradientDescentLearner K d) :
    (xs.foldl (stepOne log) s).parameters = s.parameters := by
  induction xs generalizing s with
  | nil => simp
  | cons e rest ih => simp only [List.foldl_cons, ih, stepOne_parameters]

theorem foldl_stepOne_lossFunction (log : K → K) (xs : List (Example K d))
    (s : StochasticGradientDescentLearner K d) :
    (xs.foldl (stepOne log) s).lossFunction = s.lossFunction := by
  induction xs generalizing s with
  | nil => simp
  | cons e rest ih => simp only [List.foldl_cons, ih, stepOne_lossFunction]

/-- The definition of `Update`, with its constants named. -/
theorem Update_unfold [DecidableEq K] (log : K → K)
    (s : StochasticGradientDescentLearner K d) (it : Iterator K d) :
    Update log s it =
      if ((Update.loop log (s.total_iterations : K) (Update.eta s) (Update.sigma log s it)
            (Update.start log s it) it).total_iterations : K) =
          (s.total_iterations : K) + (it.NumIteratesLeft : K) then
        some
          { Update.loop log (s.total_iterations : K) (Update.eta s) (Update.sigma log s it)
              (Update.start log s it) it with
            lastPredictor :=
              (Update.loop log (s.total_iterations : K) (Update.eta s)
                (Update.sigma log s it) (Update.start log s it) it).lastPredictor.Scale
                  ((s.total_iterations : K) /
                    ((s.total_iterations : K) + (it.NumIteratesLeft : K)))
            averagedPredictor :=
              (Update.loop log (s.total_iterations : K) (Update.eta s)
                (Update.sigma log s it) (Update.start log s it) it).averagedPredictor.Scale
                  ((s.total_iterations : K) /
                    ((s.total_iterations : K) + (it.NumIteratesLeft : K))) }
      else none :=
  rfl

/-- One turn of the loop, with the factor of `avgCoeff` named. -/
theorem loop_cons_unfold (log : K → K) (T_prev eta sigma : K)
    (s : StochasticGradientDescentLearner K d) (e : Example K d)
    (rest : List (Example K d)) :
    Update.loop log T_prev eta sigma s (e :: rest) =
      Update.loop log T_prev eta sigma
        { s with
          total_iterations := s.total_iterations + 1
          lastPredictor :=
            { w := AddTo e.dataVector s.lastPredictor.w
                (-eta * (e.weight * s.lossFunction.GetDerivative
                  (T_prev / (((s.total_iterations + 1 : Nat) : K) - 1) *
                    s.lastPredictor.Predict e.dataVector) e.label))
              b := s.lastPredictor.b +
                -eta * (e.weight * s.lossFunction.GetDerivative
                  (T_prev / (((s.total_iterations + 1 : Nat) : K) - 1) *
                    s.lastPredictor.Predict e.dataVector) e.label) }
          averagedPredictor :=
            { w := AddTo e.dataVector s.averagedPredictor.w
                (-eta * (e.weight * s.lossFunction.GetDerivative
                  (T_prev / (((s.total_iterations + 1 : Nat) : K) - 1) *
                    s.lastPredictor.Predict e.dataVector) e.label) *
                  Update.avgFactor log sigma ((s.total_iterations + 1 : Nat) : K))
              b := s.averagedPredictor.b +
                -eta * (e.weight * s.lossFunction.GetDerivative
                  (T_prev / (((s.total_iterations + 1 : Nat) : K) - 1) *
                    s.lastPredictor.Predict e.dataVector) e.label) *
                  Update.avgFactor log sigma ((s.total_iterations + 1 : Nat) : K) } }
        rest :=
  rfl

/-- The loop on a non-empty list is one turn followed by the loop on the rest: the
state in which `Update.loopAlphas` reads the next `alpha` is the state of the loop. -/
theorem loop_cons_turn (log : K → K) (T_prev eta sigma : K)
    (s : StochasticGradientDescentLearner K d) (e : Example K d)
    (rest : List (Example K d)) :
    Update.loop log T_prev eta sigma s (e :: rest) =
      Update.loop log T_prev eta sigma (Update.loop log T_prev eta sigma s [e]) rest :=
  rfl

variable [CharZero K]

/-- One turn of the loop on a stored state is a single-example update of the state it
stands for. -/
theorem loop_stored_cons (log : K → K) (Tp : Nat) (hTp : 1 ≤ Tp) (reg sigma : K)
    (s : StochasticGradientDescentLearner K d) (hs : 1 ≤ s.total_iterations)
    (hreg : s.parameters.regularization = reg)
    (e : Example K d) (rest : List (Example K d)) :
    Update.loop log (Tp : K) (1 / reg / (Tp : K)) sigma (stored log (Tp : K) sigma s)
        (e :: rest) =
      Update.loop log (Tp : K) (1 / reg / (Tp : K)) sigma
        (stored log (Tp : K) sigma (stepOne log s e)) rest := by
  have hTp0 : (Tp : K) ≠ 0 := by
    have : Tp ≠ 0 := by omega
    exact_mod_cast this
  have hT0 : (s.total_iterations : K) ≠ 0 := by
    have : s.total_iterations ≠ 0 := by omega
    exact_mod_cast this
  have hT1 : (s.total_iterations : K) + 1 ≠ 0 := by
    have : s.total_iterations + 1 ≠ 0 := by omega
    exact_mod_cast this
  have hpred : (Tp : K) / (((s.total_iterations + 1 : Nat) : K) - 1) *
      ((s.lastPredictor.Scale ((s.total_iterations : K) / (Tp : K))).Predict e.dataVector)
      = s.lastPredictor.Predict e.dataVector := by
    rw [Predict_Scale]
    push_cast
    field_simp
    ring
  rw [Update.loop]
  congr 1
  simp only [stored]
  rw [hpred]
  simp only [stepOne, Update.eta, hreg]
  generalize s.lossFunction.GetDerivative (s.lastPredictor.Predict e.dataVector) e.label = g
  generalize (1 : K) / reg = r
  push_cast
  generalize log ((s.total_iterations : K) + 1) = l1
  generalize log (s.total_iterations : K) = l0
  generalize (1 : K) / 2 / ((s.total_iterations : K) + 1) = q1
  generalize (1 : K) / 2 / (s.total_iterations : K) = q0
  ext i
  · rfl
  · rfl
  · rfl
  · simp only [AddTo, LinearPredictor.Scale]
    field_simp
  · simp only [AddTo, LinearPredictor.Scale]
    field_simp
  · simp only [AddTo, LinearPredictor.Scale]
    field_simp
    ring
  · simp only [AddTo, LinearPredictor.Scale]
    field_simp
    ring

/-- The loop on a stored state performs the single-example updates of the whole
list. -/
theorem loop_stored (log : K → K) (Tp : Nat) (hTp : 1 ≤ Tp) (reg sigma : K)
    (xs : List (Example K d)) (s : StochasticGradientDescentLearner K d)
    (hs : 1 ≤ s.total_iterations) (hreg : s.parameters.regularization = reg) :
    Update.loop log (Tp : K) (1 / reg / (Tp : K)) sigma (stored log (Tp : K) sigma s) xs =
      stored log (Tp : K) sigma (xs.foldl (stepOne log) s) := by
  induction xs generalizing s with
  | nil => rfl
  | cons e rest ih =>
    rw [loop_stored_cons log Tp hTp reg sigma s hs hreg, List.foldl_cons]
    exact ih (stepOne log s e) (by rw [stepOne_total]; omega)
      (by rw [stepOne_parameters]; exact hreg)

/-- On a list of examples `Update` returns normally, and its result is the fold of
the single-example update over the list. -/
theorem Update_eq_foldl [DecidableEq K] (log : K → K)
    (s : StochasticGradientDescentLearner K d) (hs : 1 ≤ s.total_iterations)
    (xs : List (Example K d)) :
    Update log s xs = some (xs.foldl (stepOne log) s) := by
  have hT0 : (s.total_iterations : K) ≠ 0 := by
    have : s.total_iterations ≠ 0 := by omega
    exact_mod_cast this
  have hTn : ((s.total_iterations : K) + (xs.length : K)) ≠ 0 := by
    have : s.total_iterations + xs.length ≠ 0 := by omega
    exact_mod_cast this
  have hinit : ∀ sigma : K,
      ({ s with
          averagedPredictor :=
            { w := AddTo s.lastPredictor.w s.averagedPredictor.w
                (sigma - log (s.total_iterations : K) - (1 / 2) / (s.total_iterations : K))
              b := s.averagedPredictor.b + s.lastPredictor.b *
                (sigma - log (s.total_iterations : K) - (1 / 2) / (s.total_iterations : K)) } } :
        StochasticGradientDescentLearner K d) =
        stored log (s.total_iterations : K) sigma s := by
    intro sigma
    ext i
    · rfl
    · rfl
    · rfl
    · simp only [stored, LinearPredictor.Scale]
      field_simp
    · simp only [stored, LinearPredictor.Scale]
      field_simp
    · simp only [stored, AddTo]
      rw [div_self hT0]
      ring
    · simp only [stored]
      rw [div_self hT0]
      ring
  have htot : (((xs.foldl (stepOne log) s).total_iterations : Nat) : K) =
      (s.total_iterations : K) + (xs.length : K) := by
    rw [foldl_stepOne_total]
    push_cast
    rfl
  unfold Update
  simp only [Iterator.NumIteratesLeft, Update.eta]
  rw [hinit, loop_stored log s.total_iterations hs s.parameters.regularization _ xs s hs rfl]
  have htot2 : ((stored log (s.total_iterations : K)
      (log ((s.total_iterations : K) + (xs.length : K)) +
        (1 / 2) / ((s.total_iterations : K) + (xs.length : K)))
      (xs.foldl (stepOne log) s)).total_iterations : K) =
      (s.total_iterations : K) + (xs.length : K) := htot
  rw [if_pos htot2]
  congr 1
  ext i
  · rfl
  · rfl
  · rfl
  · simp only [stored, LinearPredictor.Scale, htot]
    field_simp
  · simp only [stored, LinearPredictor.Scale, htot]
    field_simp
  · simp only [stored, LinearPredictor.Scale, htot]
    generalize (s.total_iterations : K) + (xs.length : K) = Tn at hTn
    rw [show log Tn + 1 / 2 / Tn - log Tn - 1 / 2 / Tn = 0 by ring]
    field_simp
  · simp only [stored, LinearPredictor.Scale, htot]
    generalize (s.total_iterations : K) + (xs.length : K) = Tn at hTn
    rw [show log Tn + 1 / 2 / Tn - log Tn - 1 / 2 / Tn = 0 by ring]
    field_simp

omit [CharZero K] in
theorem loop_frame (log : K → K) (Tp eta sigma : K) (xs : List (Example K d))
    (s : StochasticGradientDescentLearner K d) :
    (Update.loop log Tp eta sigma s xs).total_iterations = s.total_iterations + xs.length ∧
      (Update.loop log Tp eta sigma s xs).parameters = s.parameters ∧
      (Update.loop log Tp eta sigma s xs).lossFunction = s.lossFunction := by
  induction xs generalizing s with
  | nil => exact ⟨rfl, rfl, rfl⟩
  | cons e rest ih =>
    rw [Update.loop]
    refine ⟨?_, ?_, ?_⟩
    · rw [(ih _).1, List.length_cons]
      dsimp only
      omega
    · rw [(ih _).2.1]
    · rw [(ih _).2.2]

omit [CharZero K] in
/-- Every call of `Update` returns: the assertion of line 76 holds in every state and for
every list of examples; the counter advances by the number of examples, the
parameters and the loss function stay. -/
theorem Update_frame [DecidableEq K] (log : K → K)
    (s : StochasticGradientDescentLearner K d) (xs : List (Example K d)) :
    ∃ r, Update log s xs = some r ∧
      r.total_iterations = s.total_iterations + xs.length ∧
      r.parameters = s.parameters ∧ r.lossFunction = s.lossFunction := by
  unfold Update
  simp only [Iterator.NumIteratesLeft]
  obtain ⟨h1, h2, h3⟩ := loop_frame log (s.total_iterations : K) (Update.eta s)
    (log ((s.total_iterations : K) + (xs.length : K)) +
      (1 / 2) / ((s.total_iterations : K) + (xs.length : K))) xs
    { s with
      averagedPredictor :=
        { w := AddTo s.lastPredictor.w s.averagedPredictor.w
            (log ((s.total_iterations : K) + (xs.length : K)) +
              (1 / 2) / ((s.total_iterations : K) + (xs.length : K)) -
              log (s.total_iterations : K) - (1 / 2) / (s.total_iterations : K))
          b := s.averagedPredictor.b + s.lastPredictor.b *
            (log ((s.total_iterations : K) + (xs.length : K)) +
              (1 / 2) / ((s.total_iterations : K) + (xs.length : K)) -
              log (s.total_iterations : K) - (1 / 2) / (s.total_iterations : K)) } }
  rw [if_pos (by rw [h1]; push_cast; rfl)]
  exact ⟨_, rfl, h1, h2, h3⟩

omit [CharZero K] in
theorem UpdateAll_frame [DecidableEq K] (log : K → K) (batches : List (Iterator K d))
    (s : StochasticGradientDescentLearner K d) :
    ∃ r, UpdateAll log s batches = some r ∧
      r.total_iterations = s.total_iterations + (batches.map List.length).sum := by
  induction batches generalizing s with
  | nil => exact ⟨s, rfl, by simp⟩
  | cons it rest ih =>
    obtain ⟨r1, hr1, ht1, -, -⟩ := Update_frame log s it
    obtain ⟨r, hr, ht⟩ := ih r1
    refine ⟨r, ?_, ?_⟩
    · simp only [UpdateAll, List.foldlM_cons, hr1, Option.bind_eq_bind, Option.some_bind]
      exact hr
    · rw [ht, ht1, List.map_cons, List.sum_cons]
      omega

/-- Single-example calls, one per example, compute the fold of the single-example
update. -/
theorem UpdateEach_eq_foldl [DecidableEq K] (log : K → K) (xs : List (Example K d))
    (s : StochasticGradientDescentLearner K d) (hs : 1 ≤ s.total_iterations) :
    UpdateEach log s xs = some (xs.foldl (stepOne log) s) := by
  induction xs generalizing s with
  | nil => rfl
  | cons e rest ih =>
    have h1 : Update log s [e] = some (stepOne log s e) := Update_eq_foldl log s hs [e]
    simp only [UpdateEach, List.foldlM_cons, h1, Option.bind_eq_bind, Option.some_bind,
      List.foldl_cons]
    exact ih (stepOne log s e) (by rw [stepOne_total]; omega)

omit [CharZero K] in
/-- The kernel, written with the constants of the code. -/
theorem weightingKernel_eq (log : K → K) (t : K) :
    weightingKernel log t = log t + 1 / 2 / t := by
  rw [weightingKernel, div_div]

/-- The averaged predictor after the single-example updates of a list, multiplied by
the counter, is the counter-weighted sum of the last predictors it went through; `c` is
a coordinate of a predictor (a weight or the bias). -/
theorem foldl_stepOne_averaged (log : K → K) (c : LinearPredictor K d → K)
    (hc : ∀ (s : StochasticGradientDescentLearner K d) (e : Example K d),
      c (stepOne log s e).averagedPredictor =
        (c s.averagedPredictor +
          (weightingKernel log ((s.total_iterations : K) + 1) -
            weightingKernel log (s.total_iterations : K)) * c s.lastPredictor) *
          ((s.total_iterations : K) / ((s.total_iterations : K) + 1)))
    (xs : List (Example K d)) (s : StochasticGradientDescentLearner K d)
    (hs : 1 ≤ s.total_iterations) :
    ((xs.foldl (stepOne log) s).total_iterations : K) *
        c (xs.foldl (stepOne log) s).averagedPredictor =
      (s.total_iterations : K) * c s.averagedPredictor +
        ∑ j in Finset.range xs.length,
          ((s.total_iterations + j : Nat) : K) *
            (weightingKernel log (((s.total_iterations + j : Nat) : K) + 1) -
              weightingKernel log ((s.total_iterations + j : Nat) : K)) *
            c ((xs.take j).foldl (stepOne log) s).lastPredictor := by
  induction xs generalizing s with
  | nil => simp
  | cons e rest ih =>
    have hT1 : (s.total_iterations : K) + 1 ≠ 0 := by
      have : s.total_iterations + 1 ≠ 0 := by omega
      exact_mod_cast this
    have h1 := ih (stepOne log s e) (by rw [stepOne_total]; omega)
    rw [List.foldl_cons, h1, List.length_cons, Finset.sum_range_succ', hc s e, stepOne_total]
    have hsum : ∀ j ∈ Finset.range rest.length,
        ((s.total_iterations + 1 + j : Nat) : K) *
            (weightingKernel log (((s.total_iterations + 1 + j : Nat) : K) + 1) -
              weightingKernel log ((s.total_iterations + 1 + j : Nat) : K)) *
            c ((rest.take j).foldl (stepOne log) (stepOne log s e)).lastPredictor =
          ((s.total_iterations + (j + 1) : Nat) : K) *
            (weightingKernel log (((s.total_iterations + (j + 1) : Nat) : K) + 1) -
              weightingKernel log ((s.total_iterations + (j + 1) : Nat) : K)) *
            c (((e :: rest).take (j + 1)).foldl (stepOne log) s).lastPredictor := by
      intro j _
      rw [show s.total_iterations + 1 + j = s.total_iterations + (j + 1) by omega,
        List.take_succ_cons, List.foldl_cons]
    rw [Finset.sum_congr rfl hsum]
    simp only [List.take_zero, List.foldl_nil, Nat.add_zero]
    push_cast
    field_simp
    ring

/-- The scenario returns, and its result is two single-example updates of the fresh
learner. -/
theorem scenarioRun_eq [DecidableEq K] (log : K → K) :
    scenarioRun K log =
      some (stepOne log (stepOne log (scenarioLearner K) (scenarioFirst K))
        (scenarioSecond K)) := by
  unfold scenarioRun
  rw [Update_eq_foldl log (scenarioLearner K) (le_refl 1) [scenarioFirst K]]
  simp only [Option.some_bind, List.foldl_cons, List.foldl_nil]
  rw [Update_eq_foldl log _ (by rw [stepOne_total]; omega) [scenarioSecond K]]
  rfl

/-- The values the scenario computes. -/
theorem scenario_values (log : K → K) :
    (stepOne log (stepOne log (scenarioLearner K) (scenarioFirst K))
        (scenarioSecond K)).total_iterations = 3 ∧
    (stepOne log (stepOne log (scenarioLearner K) (scenarioFirst K))
        (scenarioSecond K)).lastPredictor.w 0 = 1 / 3 ∧
    (stepOne log (stepOne log (scenarioLearner K) (scenarioFirst K))
        (scenarioSecond K)).lastPredictor.w 1 = -(1 / 2) ∧
    (stepOne log (stepOne log (scenarioLearner K) (scenarioFirst K))
        (scenarioSecond K)).averagedPredictor.w 0 =
      (log 3 + 1 / 6 - log 2 - 1 / 4) / 3 ∧
    (stepOne log (stepOne log (scenarioLearner K) (scenarioFirst K))
        (scenarioSecond K)).averagedPredictor.w 1 = 0 := by
  refine ⟨rfl, ?_, ?_, ?_, ?_⟩
  · simp [stepOne, scenarioLearner, scenarioFirst, scenarioSecond, squaredLoss, Update.eta,
      StochasticGradientDescentLearner.new, LinearPredictor.new, LinearPredictor.Predict,
      Fin.sum_univ_two]
    norm_num
  · simp [stepOne, scenarioLearner, scenarioFirst, scenarioSecond, squaredLoss, Update.eta,
      StochasticGradientDescentLearner.new, LinearPredictor.new, LinearPredictor.Predict,
      Fin.sum_univ_two]
    norm_num
  · simp [stepOne, scenarioLearner, scenarioFirst, scenarioSecond, squaredLoss, Update.eta,
      StochasticGradientDescentLearner.new, LinearPredictor.new, LinearPredictor.Predict,
      Fin.sum_univ_two]
    norm_num
    ring
  · simp [stepOne, scenarioLearner, scenarioFirst, scenarioSecond, squaredLoss, Update.eta,
      StochasticGradientDescentLearner.new, LinearPredictor.new, LinearPredictor.Predict,
      Fin.sum_univ_two]

/-- The invariant of the two states: the counter is at least 1, and when it is 1 both
predictors are zero.  Every sequence of calls returns and keeps it. -/
theorem runCalls_invariant [DecidableEq K] (log : K → K) (calls : List (Call K d))
    (s : StochasticGradientDescentLearner K d) (hs : 1 ≤ s.total_iterations)
    (hz : s.total_iterations = 1 →
      s.lastPredictor = LinearPredictor.new K d ∧ s.averagedPredictor = LinearPredictor.new K d) :
    ∃ r, runCalls log s calls = some r ∧ 1 ≤ r.total_iterations ∧
      (r.total_iterations = 1 →
        r.lastPredictor = LinearPredictor.new K d ∧
          r.averagedPredictor = LinearPredictor.new K d) := by
  induction calls generalizing s with
  | nil => exact ⟨s, rfl, hs, hz⟩
  | cons c rest ih =>
    have hstep : ∃ r1, Call.run log s c = some r1 ∧ 1 ≤ r1.total_iterations ∧
        (r1.total_iterations = 1 →
          r1.lastPredictor = LinearPredictor.new K d ∧
            r1.averagedPredictor = LinearPredictor.new K d) := by
      cases c with
      | Update it =>
        refine ⟨_, Update_eq_foldl log s hs it, ?_, ?_⟩
        · rw [foldl_stepOne_total]; omega
        · intro h1
          rw [foldl_stepOne_total] at h1
          have hlen : it.length = 0 := by omega
          have hnil : it = [] := List.length_eq_zero.mp hlen
          subst hnil
          exact hz (by omega)
      | GetPredictor => exact ⟨s, rfl, hs, hz⟩
      | Reset => exact ⟨(Reset s).2, rfl, le_refl 1, fun _ => ⟨rfl, rfl⟩⟩
    obtain ⟨r1, h1, ht1, hz1⟩ := hstep
    obtain ⟨r, hr, ht, hzr⟩ := ih r1 ht1 hz1
    refine ⟨r, ?_, ht, hzr⟩
    simp only [runCalls, List.foldlM_cons, h1, Option.bind_eq_bind, Option.some_bind]
    exact hr

end Lemmas

/-! ## The claims -/

section Claims

variable {d : Nat}

/-- C1. Single-example-per-call equivalence of `Update`: for every learner state with
`totalIterations ≥ 1`, non-zero regularization, every loss derivative and every list
of examples, `N` calls of `Update` with one example each and one call of `Update` on
the whole list both return, with the same `totalIterations`, the same last predictor
and the same averaged predictor, over the reals. -/
theorem Update_single_example_per_call (s : StochasticGradientDescentLearner ℝ d)
    (hs : 1 ≤ s.total_iterations) (_hreg : s.parameters.regularization ≠ 0)
    (examples : List (Example ℝ d)) :
    ∃ a b, UpdateEach Real.log s examples = some a ∧ Update Real.log s examples = some b ∧
      a.total_iterations = b.total_iterations ∧
      a.lastPredictor = b.lastPredictor ∧
      a.averagedPredictor = b.averagedPredictor :=
  ⟨_, _, UpdateEach_eq_foldl Real.log examples s hs, Update_eq_foldl Real.log s hs examples,
    rfl, rfl, rfl⟩

/-- Witness of C1: the two examples of the scenario on the fresh learner of dimension 2
with regularization 1. -/
theorem Update_single_example_per_call_witness :
    1 ≤ (scenarioLearner ℝ).total_iterations ∧
    (scenarioLearner ℝ).parameters.regularization ≠ 0 ∧
    ∃ a b, UpdateEach Real.log (scenarioLearner ℝ) [scenarioFirst ℝ, scenarioSecond ℝ] = some a ∧
      Update Real.log (scenarioLearner ℝ) [scenarioFirst ℝ, scenarioSecond ℝ] = some b ∧
      a.total_iterations = b.total_iterations ∧
      a.lastPredictor = b.lastPredictor ∧
      a.averagedPredictor = b.averagedPredictor :=
  ⟨le_refl 1, one_ne_zero,
    Update_single_example_per_call (scenarioLearner ℝ) (le_refl 1) one_ne_zero
      [scenarioFirst ℝ, scenarioSecond ℝ]⟩

/-- C2. Monotonic iteration count: every `Update` call over a list of `n` examples
returns and increases `totalIterations` by exactly `n`; starting from a freshly
constructed learner, a sequence of `Update` calls that together processed `k`
examples returns with `totalIterations = 1 + k`. -/
theorem Update_total_iterations (dim : Nat)
    (parameters : StochasticGradientDescentLearnerParameters ℝ)
    (lossFunction : LossFunctionType ℝ) :
    (∀ (s : StochasticGradientDescentLearner ℝ dim) (exampleIterator : Iterator ℝ dim),
      ∃ r, Update Real.log s exampleIterator = some r ∧
        r.total_iterations = s.total_iterations + exampleIterator.length) ∧
    (∀ batches : List (Iterator ℝ dim),
      ∃ r, UpdateAll Real.log
          (StochasticGradientDescentLearner.new dim parameters lossFunction) batches = some r ∧
        r.total_iterations = 1 + (batches.map List.length).sum) := by
  constructor
  · intro s it
    obtain ⟨r, hr, ht, -, -⟩ := Update_frame Real.log s it
    exact ⟨r, hr, ht⟩
  · intro batches
    exact UpdateAll_frame Real.log batches
      (StochasticGradientDescentLearner.new dim parameters lossFunction)

/-- C3. Reset hand-off: `Reset` returns the predictor that `GetPredictor` returned
immediately before; in the state after `Reset`, `GetPredictor` returns the zero
predictor of the same dimension, the last predictor is zero and `totalIterations`
is 1. -/
theorem Reset_hand_off (s : StochasticGradientDescentLearner ℝ d) :
    (Reset s).1 = (GetPredictor s).1 ∧
    (∀ i, (GetPredictor (Reset s).2).1.w i = 0) ∧ (GetPredictor (Reset s).2).1.b = 0 ∧
    (∀ i, (Reset s).2.lastPredictor.w i = 0) ∧ (Reset s).2.lastPredictor.b = 0 ∧
    (Reset s).2.total_iterations = 1 :=
  ⟨rfl, fun _ => rfl, rfl, fun _ => rfl, rfl, rfl⟩

/-- C4. Reset restores the fresh state: for every learner state (so for every
reachable one), the state after `Reset` is the state of a learner freshly constructed
with the same dimension, parameters and loss function; hence every subsequent
sequence of `Update` calls returns the same state on both. -/
theorem Reset_restores_fresh (s : StochasticGradientDescentLearner ℝ d) :
    (Reset s).2 = StochasticGradientDescentLearner.new d s.parameters s.lossFunction ∧
    ∀ batches : List (Iterator ℝ d),
      ∃ r, UpdateAll Real.log (Reset s).2 batches = some r ∧
        UpdateAll Real.log
          (StochasticGradientDescentLearner.new d s.parameters s.lossFunction) batches =
          some r := by
  have h : (Reset s).2 = StochasticGradientDescentLearner.new d s.parameters s.lossFunction :=
    rfl
  refine ⟨h, fun batches => ?_⟩
  obtain ⟨r, hr, -⟩ := UpdateAll_frame Real.log batches (Reset s).2
  exact ⟨r, hr, h ▸ hr⟩

/-- C6. Concrete scenario, last predictor: after the two single-example `Update`
calls of the scenario the weight vector of the last predictor is `[1/3, -1/2]`:
non-zero in both coordinates, strictly positive in the first and strictly negative in
the second. -/
theorem scenario_last :
    ∃ s, scenarioRun ℝ Real.log = some s ∧
      s.lastPredictor.w 0 = 1 / 3 ∧ s.lastPredictor.w 1 = -(1 / 2) ∧
      s.lastPredictor.w 0 ≠ 0 ∧ s.lastPredictor.w 1 ≠ 0 ∧
      0 < s.lastPredictor.w 0 ∧ s.lastPredictor.w 1 < 0 := by
  obtain ⟨-, h0, h1, -, -⟩ := scenario_values Real.log
  refine ⟨_, scenarioRun_eq Real.log, h0, h1, ?_, ?_, ?_, ?_⟩
  · rw [h0]; norm_num
  · rw [h1]; norm_num
  · rw [h0]; norm_num
  · rw [h1]; norm_num

/-- C8. `GetPredictor` before any `Update` returns the zero predictor: the averaged
predictor of a freshly constructed learner of dimension `dim` has all `dim` weights and
the bias equal to 0; `GetPredictor` leaves every learner state as it is. -/
theorem GetPredictor_fresh (dim : Nat)
    (parameters : StochasticGradientDescentLearnerParameters ℝ)
    (lossFunction : LossFunctionType ℝ) :
    (∀ i, (GetPredictor
      (StochasticGradientDescentLearner.new dim parameters lossFunction)).1.w i = 0) ∧
    (GetPredictor (StochasticGradientDescentLearner.new dim parameters lossFunction)).1.b = 0 ∧
    (∀ s : StochasticGradientDescentLearner ℝ dim, (GetPredictor s).2 = s) ∧
    (GetPredictor (scenarioLearner ℝ)).1.w = ![0, 0] ∧
    (GetPredictor (scenarioLearner ℝ)).1.b = 0 := by
  refine ⟨fun _ => rfl, rfl, fun _ => rfl, ?_, rfl⟩
  funext i
  fin_cases i <;> rfl

/-- C9, as stated, fails: constructing a learner of dimension 2 with regularization
`-1` is not rejected; it yields a learner, on which `Update` can be called and
returns. -/
theorem construction_not_rejected :
    ¬ (MakeStochasticGradientDescentLearner 2 { regularization := (-1 : ℝ) } (squaredLoss ℝ) =
        none) ∧
    ∃ s r, MakeStochasticGradientDescentLearner 2 { regularization := (-1 : ℝ) }
        (squaredLoss ℝ) = some s ∧
      Update Real.log s [scenarioFirst ℝ] = some r := by
  obtain ⟨r, hr, -⟩ := Update_frame Real.log
    (StochasticGradientDescentLearner.new 2 { regularization := (-1 : ℝ) } (squaredLoss ℝ))
    [scenarioFirst ℝ]
  exact ⟨fun h => Option.noConfusion h, _, r, rfl, hr⟩

/-- C9, amended. Construction validates nothing: for every dimension, every
regularization (positive or not) and every loss function, construction yields a
learner, which stores the regularization it was given, has `totalIterations = 1` and
zero predictors. -/
theorem construction_accepts_any_regularization (dim : Nat)
    (parameters : StochasticGradientDescentLearnerParameters ℝ)
    (lossFunction : LossFunctionType ℝ) :
    ∃ s, MakeStochasticGradientDescentLearner dim parameters lossFunction = some s ∧
      s.parameters.regularization = parameters.regularization ∧
      s.total_iterations = 1 ∧
      (∀ i, s.lastPredictor.w i = 0) ∧ s.lastPredictor.b = 0 ∧
      (∀ i, s.averagedPredictor.w i = 0) ∧ s.averagedPredictor.b = 0 :=
  ⟨_, rfl, rfl, rfl, fun _ => rfl, rfl, fun _ => rfl, rfl⟩

/-- C10, as stated, fails: `Update` on the fresh scenario learner with an iterator
that has no remaining examples returns normally. -/
theorem Update_exhausted_returns :
    ¬ (Update Real.log (scenarioLearner ℝ) [] = none) := by
  obtain ⟨r, hr, -⟩ := Update_frame Real.log (scenarioLearner ℝ) []
  rw [hr]
  exact fun h => Option.noConfusion h

/-- C10, amended. `Update` does not check for an exhausted iterator: for every learner
state, `Update` with an iterator that has no remaining examples returns normally (the
loop body is not entered and the assertion holds), with `totalIterations`, the
parameters and the loss function unchanged. -/
theorem Update_exhausted_no_abort (s : StochasticGradientDescentLearner ℝ d) :
    ∃ r, Update Real.log s [] = some r ∧ r.total_iterations = s.total_iterations ∧
      r.parameters = s.parameters ∧ r.lossFunction = s.lossFunction := by
  obtain ⟨r, hr, ht, hp, hl⟩ := Update_frame Real.log s []
  exact ⟨r, hr, by simpa using ht, hp, hl⟩

/-- C11. Averaging closed form: with `h(t) = ln(t) + 1/(2t)`, for a fresh learner
with non-zero regularization fed `N` examples, one per `Update` call, let `w s` for
`1 ≤ s ≤ N` be the last predictor at the moment `totalIterations = s` (so `w 1 = 0`).
After the `N` calls the averaged predictor is
`(1/(N+1)) * ∑ s in 1..N, s * (h(s+1) - h(s)) * w s`, weights and bias, over the
reals. -/
theorem averaging_closed_form (dim : Nat)
    (parameters : StochasticGradientDescentLearnerParameters ℝ)
    (lossFunction : LossFunctionType ℝ) (_hreg : parameters.regularization ≠ 0)
    (examples : List (Example ℝ dim)) :
    ∃ (w : Nat → LinearPredictor ℝ dim) (r : StochasticGradientDescentLearner ℝ dim),
      (∀ s, 1 ≤ s → s ≤ examples.length →
        ∃ q, UpdateEach Real.log
            (StochasticGradientDescentLearner.new dim parameters lossFunction)
            (examples.take (s - 1)) = some q ∧
          q.total_iterations = s ∧ q.lastPredictor = w s) ∧
      ((∀ i, (w 1).w i = 0) ∧ (w 1).b = 0) ∧
      UpdateEach Real.log (StochasticGradientDescentLearner.new dim parameters lossFunction)
        examples = some r ∧
      (∀ i, r.averagedPredictor.w i =
        1 / ((examples.length : ℝ) + 1) *
          ∑ s in Finset.Icc 1 examples.length,
            (s : ℝ) * (weightingKernel Real.log ((s : ℝ) + 1) -
              weightingKernel Real.log (s : ℝ)) * (w s).w i) ∧
      r.averagedPredictor.b =
        1 / ((examples.length : ℝ) + 1) *
          ∑ s in Finset.Icc 1 examples.length,
            (s : ℝ) * (weightingKernel Real.log ((s : ℝ) + 1) -
              weightingKernel Real.log (s : ℝ)) * (w s).b := by
  have hfresh : 1 ≤ (StochasticGradientDescentLearner.new dim parameters
      lossFunction : StochasticGradientDescentLearner ℝ dim).total_iterations := le_refl 1
  have hN : ((examples.length : ℝ) + 1) ≠ 0 := by positivity
  have hform : ∀ c : LinearPredictor ℝ dim → ℝ,
      (∀ (s : StochasticGradientDescentLearner ℝ dim) (e : Example ℝ dim),
        c (stepOne Real.log s e).averagedPredictor =
          (c s.averagedPredictor +
            (weightingKernel Real.log ((s.total_iterations : ℝ) + 1) -
              weightingKernel Real.log (s.total_iterations : ℝ)) * c s.lastPredictor) *
            ((s.total_iterations : ℝ) / ((s.total_iterations : ℝ) + 1))) →
      c (LinearPredictor.new ℝ dim) = 0 →
      c (examples.foldl (stepOne Real.log)
          (StochasticGradientDescentLearner.new dim parameters lossFunction)).averagedPredictor =
        1 / ((examples.length : ℝ) + 1) *
          ∑ s in Finset.Icc 1 examples.length,
            (s : ℝ) * (weightingKernel Real.log ((s : ℝ) + 1) -
              weightingKernel Real.log (s : ℝ)) *
              c ((examples.take (s - 1)).foldl (stepOne Real.log)
                (StochasticGradientDescentLearner.new dim parameters lossFunction)).lastPredictor := by
    intro c hc hc0
    have h := foldl_stepOne_averaged Real.log c hc examples
      (StochasticGradientDescentLearner.new dim parameters lossFunction) hfresh
    rw [foldl_stepOne_total] at h
    have hzero : c (StochasticGradientDescentLearner.new dim parameters
        lossFunction : StochasticGradientDescentLearner ℝ dim).averagedPredictor = 0 := hc0
    rw [hzero, mul_zero, zero_add] at h
    rw [← Nat.Ico_succ_right, Finset.sum_Ico_eq_sum_range, Nat.succ_sub_one]
    have hsum : ∀ j ∈ Finset.range examples.length,
        ((1 + j : Nat) : ℝ) * (weightingKernel Real.log (((1 + j : Nat) : ℝ) + 1) -
            weightingKernel Real.log ((1 + j : Nat) : ℝ)) *
          c ((examples.take (1 + j - 1)).foldl (stepOne Real.log)
            (StochasticGradientDescentLearner.new dim parameters lossFunction)).lastPredictor =
        ((1 + j : Nat) : ℝ) * (weightingKernel Real.log (((1 + j : Nat) : ℝ) + 1) -
            weightingKernel Real.log ((1 + j : Nat) : ℝ)) *
          c ((examples.take j).foldl (stepOne Real.log)
            (StochasticGradientDescentLearner.new dim parameters lossFunction)).lastPredictor := by
      intro j _
      rw [Nat.add_sub_cancel_left]
    rw [Finset.sum_congr rfl hsum]
    have h2 : (StochasticGradientDescentLearner.new dim parameters
        lossFunction : StochasticGradientDescentLearner ℝ dim).total_iterations = 1 := rfl
    rw [h2] at h
    rw [← h]
    push_cast
    field_simp
    ring
  refine ⟨fun s => ((examples.take (s - 1)).foldl (stepOne Real.log)
      (StochasticGradientDescentLearner.new dim parameters lossFunction)).lastPredictor,
    _, ?_, ⟨fun _ => rfl, rfl⟩, UpdateEach_eq_foldl Real.log examples _ hfresh, ?_, ?_⟩
  · intro s h1 h2
    refine ⟨_, UpdateEach_eq_foldl Real.log _ _ hfresh, ?_, rfl⟩
    rw [foldl_stepOne_total, List.length_take]
    show 1 + min (s - 1) examples.length = s
    omega
  · intro i
    exact hform (fun p => p.w i)
      (fun s e => by simp only [stepOne, weightingKernel_eq]; ring) rfl
  · exact hform (fun p => p.b)
      (fun s e => by simp only [stepOne, weightingKernel_eq]; ring) rfl

/-- Witness of C11: the scenario learner (regularization 1) fed the two examples of
the scenario. -/
theorem averaging_closed_form_witness :
    (1 : ℝ) ≠ 0 ∧
    ∃ (w : Nat → LinearPredictor ℝ 2) (r : StochasticGradientDescentLearner ℝ 2),
      (∀ s, 1 ≤ s → s ≤ 2 →
        ∃ q, UpdateEach Real.log (scenarioLearner ℝ)
            ([scenarioFirst ℝ, scenarioSecond ℝ].take (s - 1)) = some q ∧
          q.total_iterations = s ∧ q.lastPredictor = w s) ∧
      ((∀ i, (w 1).w i = 0) ∧ (w 1).b = 0) ∧
      UpdateEach Real.log (scenarioLearner ℝ) [scenarioFirst ℝ, scenarioSecond ℝ] = some r ∧
      (∀ i, r.averagedPredictor.w i =
        1 / (((2 : Nat) : ℝ) + 1) *
          ∑ s in Finset.Icc (1 : Nat) 2,
            (s : ℝ) * (weightingKernel Real.log ((s : ℝ) + 1) -
              weightingKernel Real.log (s : ℝ)) * (w s).w i) ∧
      r.averagedPredictor.b =
        1 / (((2 : Nat) : ℝ) + 1) *
          ∑ s in Finset.Icc (1 : Nat) 2,
            (s : ℝ) * (weightingKernel Real.log ((s : ℝ) + 1) -
              weightingKernel Real.log (s : ℝ)) * (w s).b :=
  ⟨one_ne_zero,
    averaging_closed_form 2 { regularization := 1 } (squaredLoss ℝ) one_ne_zero
      [scenarioFirst ℝ, scenarioSecond ℝ]⟩

/-- C13. The consistency assertion of `Update` always holds: in every turn-by-turn run
of the loop the counter advances by the number of examples the iterator reported as
remaining, so after the loop `totalIterations` equals `T_next = T_prev + remaining`
for every state and every example list, and `Update` returns. -/
theorem Update_assertion_holds (s : StochasticGradientDescentLearner ℝ d)
    (exampleIterator : Iterator ℝ d) :
    (∀ (T_prev eta sigma : ℝ) (s0 : StochasticGradientDescentLearner ℝ d),
      (Update.loop Real.log T_prev eta sigma s0 exampleIterator).total_iterations =
        s0.total_iterations + exampleIterator.NumIteratesLeft) ∧
    ((Update.loop Real.log (s.total_iterations : ℝ) (Update.eta s)
        (Update.sigma Real.log s exampleIterator) (Update.start Real.log s exampleIterator)
        exampleIterator).total_iterations : ℝ) =
      (s.total_iterations : ℝ) + (exampleIterator.NumIteratesLeft : ℝ) ∧
    ∃ r, Update Real.log s exampleIterator = some r := by
  refine ⟨fun T_prev eta sigma s0 =>
    (loop_frame Real.log T_prev eta sigma exampleIterator s0).1, ?_, ?_⟩
  · rw [(loop_frame Real.log _ _ _ exampleIterator _).1]
    push_cast
    rfl
  · obtain ⟨r, hr, -⟩ := Update_frame Real.log s exampleIterator
    exact ⟨r, hr⟩

/-- C14. Two-state invariant: every sequence of `Update`, `GetPredictor` and `Reset`
calls on a freshly constructed learner returns, in a state with `totalIterations ≥ 1`
in which, when `totalIterations = 1`, both the last and the averaged predictor are
zero; and `Update` on a non-empty example list in such a state returns with
`totalIterations > 1`. -/
theorem two_state_invariant (dim : Nat)
    (parameters : StochasticGradientDescentLearnerParameters ℝ)
    (lossFunction : LossFunctionType ℝ) (calls : List (Call ℝ dim)) :
    ∃ s, runCalls Real.log
        (StochasticGradientDescentLearner.new dim parameters lossFunction) calls = some s ∧
      1 ≤ s.total_iterations ∧
      (s.total_iterations = 1 →
        s.lastPredictor = LinearPredictor.new ℝ dim ∧
          s.averagedPredictor = LinearPredictor.new ℝ dim) ∧
      ∀ exampleIterator : Iterator ℝ dim, exampleIterator ≠ [] →
        ∃ r, Update Real.log s exampleIterator = some r ∧ 1 < r.total_iterations := by
  obtain ⟨s, hrun, ht, hz⟩ := runCalls_invariant Real.log calls
    (StochasticGradientDescentLearner.new dim parameters lossFunction) (le_refl 1)
    (fun _ => ⟨rfl, rfl⟩)
  refine ⟨s, hrun, ht, hz, fun it hne => ?_⟩
  obtain ⟨r, hr, hrt, -, -⟩ := Update_frame Real.log s it
  refine ⟨r, hr, ?_⟩
  have hlen : 0 < it.length := List.length_pos.mpr hne
  omega

/-- Witness of C14: the scenario learner after an `Update` and a `Reset` is in the
fresh state, and an `Update` with one example leaves it. -/
theorem two_state_invariant_witness :
    ∃ s, runCalls Real.log (scenarioLearner ℝ)
        [Call.Update [scenarioFirst ℝ], Call.Reset] = some s ∧
      s.total_iterations = 1 ∧
      s.lastPredictor = LinearPredictor.new ℝ 2 ∧
      s.averagedPredictor = LinearPredictor.new ℝ 2 ∧
      ∃ r, Update Real.log s [scenarioSecond ℝ] = some r ∧ 1 < r.total_iterations := by
  obtain ⟨s, hrun, -, hz, hupd⟩ := two_state_invariant 2 { regularization := 1 }
    (squaredLoss ℝ) [Call.Update [scenarioFirst ℝ], Call.Reset]
  have hone : s.total_iterations = 1 := by
    obtain ⟨r1, hr1, -⟩ := Update_frame Real.log (scenarioLearner ℝ) [scenarioFirst ℝ]
    have hrun2 : runCalls Real.log (scenarioLearner ℝ)
        [Call.Update [scenarioFirst ℝ], Call.Reset] = some (Reset r1).2 := by
      simp only [runCalls, List.foldlM_cons, List.foldlM_nil, Call.run, hr1,
        Option.bind_eq_bind, Option.some_bind, Option.pure_def]
    have hs : s = (Reset r1).2 := Option.some.inj (hrun.symm.trans hrun2)
    rw [hs]
    rfl
  exact ⟨s, hrun, hone, (hz hone).1, (hz hone).2, hupd [scenarioSecond ℝ] (by simp)⟩

/-- C16. Batch splitting: for every state with `totalIterations ≥ 1`, non-zero
regularization, loss derivative and example lists `xs` and `ys`, one `Update` call on
`xs ++ ys` and an `Update` call on `xs` followed by one on `ys` all return, with the
same `totalIterations`, last predictor and averaged predictor, over the reals. -/
theorem Update_batch_splitting (s : StochasticGradientDescentLearner ℝ d)
    (hs : 1 ≤ s.total_iterations) (_hreg : s.parameters.regularization ≠ 0)
    (xs ys : List (Example ℝ d)) :
    ∃ a b r, Update Real.log s xs = some a ∧ Update Real.log a ys = some b ∧
      Update Real.log s (xs ++ ys) = some r ∧
      r.total_iterations = b.total_iterations ∧
      r.lastPredictor = b.lastPredictor ∧
      r.averagedPredictor = b.averagedPredictor := by
  have ha : 1 ≤ (xs.foldl (stepOne Real.log) s).total_iterations := by
    rw [foldl_stepOne_total]
    omega
  refine ⟨_, _, _, Update_eq_foldl Real.log s hs xs, Update_eq_foldl Real.log _ ha ys,
    Update_eq_foldl Real.log s hs (xs ++ ys), ?_, ?_, ?_⟩ <;> rw [List.foldl_append]

/-- Witness of C16: the scenario learner, the first example as one batch and the second
as the next. -/
theorem Update_batch_splitting_witness :
    1 ≤ (scenarioLearner ℝ).total_iterations ∧
    (scenarioLearner ℝ).parameters.regularization ≠ 0 ∧
    ∃ a b r, Update Real.log (scenarioLearner ℝ) [scenarioFirst ℝ] = some a ∧
      Update Real.log a [scenarioSecond ℝ] = some b ∧
      Update Real.log (scenarioLearner ℝ) ([scenarioFirst ℝ] ++ [scenarioSecond ℝ]) = some r ∧
      r.total_iterations = b.total_iterations ∧
      r.lastPredictor = b.lastPredictor ∧
      r.averagedPredictor = b.averagedPredictor :=
  ⟨le_refl 1, one_ne_zero,
    Update_batch_splitting (scenarioLearner ℝ) (le_refl 1) one_ne_zero [scenarioFirst ℝ]
      [scenarioSecond ℝ]⟩

end Claims

end trainers
